import Mathlib

/-!
Verification of the AccessControlPlugin authorization core: a shallow
embedding of the relational data model (accessControlObjects,
accessControlOwners, accessControlRules, aclMetadata), of the Grant Ledger
operations (`grant`, `revoke`, `addAccessCtlObject`), of the two access
policies (`ACLAccessPolicy.verify`, `OwnerAccessPolicy.verify`), of the
policy registry built in `AppPlugin.start`, and of the schema upgrade
command (`CommandLinePlugin.upgradeSchema`).

The relational store is embedded as lists of rows; SQL statements become
pure functions over a `Store`. Statements that MySQL can reject raise
errors through `Except`: constraint violations (`pymysql.IntegrityError`)
are derived from the version-2 schema's UNIQUE and FOREIGN KEY declarations,
and other storage-layer failures are modelled by an optional injected
fault per executed statement.
-/

/-- One row of the `accessControlObjects` table (schema v2):
`id` is the AUTO_INCREMENT primary key, and (objectClass, objectId) is
declared UNIQUE. -/
structure ProtectedObjectRow where
  id : Nat
  objectClass : String
  objectId : Int
deriving Repr, DecidableEq

/-- One row of the `accessControlOwners` table:
(accessCtlObjectId, ownerId) is UNIQUE, `accessCtlObjectId` is a foreign
key into `accessControlObjects` and `ownerId` a foreign key into `users`. -/
structure OwnershipRow where
  accessCtlObjectId : Nat
  ownerId : Int
deriving Repr, DecidableEq

/-- One row of the `accessControlRules` table:
`id` is AUTO_INCREMENT, (accessCtlObjectId, granteeId, accessType) is
UNIQUE, `accessCtlObjectId` references `accessControlObjects` and
`granteeId` references `users`. -/
structure GrantRuleRow where
  id : Nat
  accessCtlObjectId : Nat
  granteeId : Int
  accessType : String
deriving Repr, DecidableEq

/-- The state visible through one database connection: the three ACL
tables of schema v2, the host-owned `users` table (referenced only through
foreign keys), and the AUTO_INCREMENT counters of the two tables that
have one. -/
structure Store where
  users : List Int
  objects : List ProtectedObjectRow
  owners : List OwnershipRow
  rules : List GrantRuleRow
  nextObjectId : Nat
  nextRuleId : Nat
deriving Repr, DecidableEq

/-- The two kinds of `pymysql.IntegrityError` the v2 schema can produce. -/
inductive IntegrityKind where
  | duplicateKey
  | foreignKey
deriving Repr, DecidableEq

/-- A storage-layer error raised by a statement: an `IntegrityError`
(constraint violation) or any other database error (modelled with an
opaque code, e.g. a `pymysql.OperationalError`). -/
inductive DbError where
  | integrity (kind : IntegrityKind)
  | operational (code : Nat)
deriving Repr, DecidableEq

/-- Errors surfaced by the Grant Ledger operations. `objectNotFound`
embeds `ACLAccessPolicy.Error('object not found')`; `missingArgument`
embeds `Coronado.Exceptions.MissingArgument`; `attributeErrorNone` is the
Python `AttributeError` raised by calling `.cursor()` on `None`;
`dbError` wraps a propagated storage-layer error. -/
inductive LedgerError where
  | objectNotFound
  | missingArgument
  | attributeErrorNone
  | dbError (e : DbError)
deriving Repr, DecidableEq

/-- Embeds `SELECT id FROM accessControlObjects WHERE objectClass = %s AND
objectId = %s` followed by `fetchone`, returning the `id` column.
This is also the spec's `findObject` point lookup. -/
def findObject (s : Store) (objectClass : String) (objectId : Int) : Option Nat :=
  (s.objects.find? fun o => o.objectClass == objectClass && o.objectId == objectId).map
    (fun o => o.id)

/-- The join rows of the `ACLAccessPolicy.verify` query: the cross product
`accessControlObjects, accessControlRules` filtered by
`objectClass = %s AND objectId = %s AND accessControlObjects.id =
accessCtlObjectId AND granteeId = %s AND accessType = %s`. -/
def grantJoinRows (s : Store) (objectClass : String) (objectId : Int)
    (granteeId : Int) (accessType : String) : List (ProtectedObjectRow × GrantRuleRow) :=
  ((s.objects.flatMap fun o => s.rules.map fun r => (o, r)).filter
    fun p => p.1.objectClass == objectClass && p.1.objectId == objectId &&
      p.1.id == p.2.accessCtlObjectId && p.2.granteeId == granteeId &&
      p.2.accessType == accessType)

/-- The spec's `findGrant` lookup: run the verify query and return the
`accessCtlObjectId` column of the fetched row, if any. -/
def findGrant (s : Store) (objectClass : String) (objectId : Int)
    (granteeId : Int) (accessType : String) : Option Nat :=
  (grantJoinRows s objectClass objectId granteeId accessType).head?.map
    (fun p => p.2.accessCtlObjectId)

/-- The join rows of the `OwnerAccessPolicy.verify` query: the cross
product `accessControlObjects, accessControlOwners` filtered by
`objectClass = %s AND objectId = %s AND accessControlObjects.id =
accessCtlObjectId AND ownerId = %s`. -/
def ownerJoinRows (s : Store) (objectClass : String) (objectId : Int)
    (ownerId : Int) : List (ProtectedObjectRow × OwnershipRow) :=
  ((s.objects.flatMap fun o => s.owners.map fun w => (o, w)).filter
    fun p => p.1.objectClass == objectClass && p.1.objectId == objectId &&
      p.1.id == p.2.accessCtlObjectId && p.2.ownerId == ownerId)

/-- The spec's `findOwnership` lookup: run the ownership query and return
the `accessCtlObjectId` column of the fetched row, if any. -/
def findOwnership (s : Store) (objectClass : String) (objectId : Int)
    (ownerId : Int) : Option Nat :=
  (ownerJoinRows s objectClass objectId ownerId).head?.map
    (fun p => p.2.accessCtlObjectId)

/-- Embeds `INSERT INTO accessControlObjects (objectClass, objectId) VALUES
(%s, %s)`: fails with a duplicate-key `IntegrityError` when the UNIQUE
(objectClass, objectId) constraint is violated, otherwise appends the row
under the next AUTO_INCREMENT id and returns that id (as later read back
by `database.insert_id()`). -/
def insertObject (s : Store) (objectClass : String) (objectId : Int) :
    Except DbError (Store × Nat) :=
  if s.objects.any fun o => o.objectClass == objectClass && o.objectId == objectId then
    .error (.integrity .duplicateKey)
  else
    .ok ({ s with
            objects := s.objects ++ [⟨s.nextObjectId, objectClass, objectId⟩],
            nextObjectId := s.nextObjectId + 1 },
         s.nextObjectId)

/-- Embeds `INSERT INTO accessControlOwners VALUES (%s, %s)`: fails with a
duplicate-key `IntegrityError` on the UNIQUE (accessCtlObjectId, ownerId)
constraint, with a foreign-key `IntegrityError` when `ownerId` is not in
`users` or `accessCtlObjectId` is not a registered object id, and
otherwise appends the row. -/
def insertOwner (s : Store) (accessCtlObjectId : Nat) (ownerId : Int) :
    Except DbError Store :=
  if s.owners.any fun w => w.accessCtlObjectId == accessCtlObjectId && w.ownerId == ownerId then
    .error (.integrity .duplicateKey)
  else if !(s.users.contains ownerId) || !(s.objects.any fun o => o.id == accessCtlObjectId) then
    .error (.integrity .foreignKey)
  else
    .ok { s with owners := s.owners ++ [⟨accessCtlObjectId, ownerId⟩] }

/-- Embeds `INSERT INTO accessControlRules (accessCtlObjectId, granteeId,
accessType) VALUES (%s, %s, %s)`: fails with a duplicate-key
`IntegrityError` on the UNIQUE (accessCtlObjectId, granteeId, accessType)
constraint, with a foreign-key `IntegrityError` when `granteeId` is not in
`users` or `accessCtlObjectId` is not a registered object id, and
otherwise appends the row under the next AUTO_INCREMENT rule id. -/
def insertRule (s : Store) (accessCtlObjectId : Nat) (granteeId : Int)
    (accessType : String) : Except DbError Store :=
  if s.rules.any fun r => r.accessCtlObjectId == accessCtlObjectId &&
      r.granteeId == granteeId && r.accessType == accessType then
    .error (.integrity .duplicateKey)
  else if !(s.users.contains granteeId) || !(s.objects.any fun o => o.id == accessCtlObjectId) then
    .error (.integrity .foreignKey)
  else
    .ok { s with
            rules := s.rules ++ [⟨s.nextRuleId, accessCtlObjectId, granteeId, accessType⟩],
            nextRuleId := s.nextRuleId + 1 }

/-- Embeds `DELETE FROM accessControlRules WHERE accessCtlObjectId = %s AND
granteeId = %s AND accessType = %s`: removes every matching row (a no-op
when none matches). -/
def deleteRules (s : Store) (accessCtlObjectId : Nat) (granteeId : Int)
    (accessType : String) : Store :=
  { s with
      rules := s.rules.filter fun r => !(r.accessCtlObjectId == accessCtlObjectId &&
        r.granteeId == granteeId && r.accessType == accessType) }

/-- Number of `accessControlRules` rows carrying a given
(accessCtlObjectId, granteeId, accessType) key. -/
def ruleKeyCount (s : Store) (accessCtlObjectId : Nat) (granteeId : Int)
    (accessType : String) : Nat :=
  (s.rules.filter fun r => r.accessCtlObjectId == accessCtlObjectId &&
    r.granteeId == granteeId && r.accessType == accessType).length

/-- Execute one statement with an optional injected environment fault:
when a fault is injected the statement fails with it (and performs no
mutation); otherwise the statement's own outcome stands. -/
def runStep {α : Type} (fault : Option DbError) (stmt : Except DbError α) :
    Except DbError α :=
  match fault with
  | some e => .error e
  | none => stmt

/-- An access policy object as built by `AccessPolicy.__init__`: it
carries the configured error value to raise on denial
(`forbiddenExceptionCls`). The type `ε` of that value is host-chosen. -/
structure AccessPolicy (ε : Type) where
  forbiddenExceptionCls : ε

namespace ACLAccessPolicy

/-- Embeds `ACLAccessPolicy.verify`: a null `userId` raises the configured
forbidden error; otherwise the grant-join query runs, a missing row
raises the configured forbidden error, and a fetched row's
`accessCtlObjectId` is returned. -/
def verify {ε : Type} (p : AccessPolicy ε) (s : Store) (userId : Option Int)
    (objectClass : String) (objectId : Int) (accessType : String) : Except ε Nat :=
  match userId with
  | none => .error p.forbiddenExceptionCls
  | some uid =>
    match findGrant s objectClass objectId uid accessType with
    | none => .error p.forbiddenExceptionCls
    | some acoId => .ok acoId

/-- Embeds `ACLAccessPolicy.grant(objectClass, objectId, granteeId, accessType,
database=None, cursor=None)`: requires a database or a cursor, resolves
the object id (raising `object not found` when absent), then inserts the
GrantRule; a `pymysql.IntegrityError` from the insert is swallowed, any
other insert failure propagates. `inj` is an optional environment fault
injected at the insert statement. -/
def grant (objectClass : String) (objectId : Int) (granteeId : Int)
    (accessType : String) (database : Option Unit) (cursor : Option Unit)
    (inj : Option DbError) (s : Store) : Except LedgerError Store :=
  if cursor = none ∧ database = none then
    .error .missingArgument
  else
    match findObject s objectClass objectId with
    | none => .error .objectNotFound
    | some acoId =>
      match runStep inj (insertRule s acoId granteeId accessType) with
      | .ok s1 => .ok s1
      | .error (.integrity _) => .ok s
      | .error e => .error (.dbError e)

/-- Embeds `ACLAccessPolicy.revoke(objectClass, objectId, granteeId, accessType,
database=None, cursor=None)`: requires a database or a cursor, resolves
the object id (raising `object not found` when absent), then deletes the
matching GrantRule rows; a `pymysql.IntegrityError` from the delete is
swallowed, any other delete failure propagates. -/
def revoke (objectClass : String) (objectId : Int) (granteeId : Int)
    (accessType : String) (database : Option Unit) (cursor : Option Unit)
    (inj : Option DbError) (s : Store) : Except LedgerError Store :=
  if cursor = none ∧ database = none then
    .error .missingArgument
  else
    match findObject s objectClass objectId with
    | none => .error .objectNotFound
    | some acoId =>
      match runStep inj (.ok (deleteRules s acoId granteeId accessType)) with
      | .ok s1 => .ok s1
      | .error (.integrity _) => .ok s
      | .error e => .error (.dbError e)

/-- Per-statement injected faults for the `addAccessCtlObject` insert
sequence (object insert, ownership insert, "read" rule insert, "edit"
rule insert). -/
structure Inject where
  objFault : Option DbError
  ownFault : Option DbError
  ruleReadFault : Option DbError
  ruleEditFault : Option DbError
deriving Repr, DecidableEq

/-- No injected faults: every statement's own outcome stands. -/
def noInject : Inject := ⟨none, none, none, none⟩

/-- The try-block of `addAccessCtlObject`: insert the ProtectedObject,
read back its id, insert the Ownership row, then the two GrantRules
("read" then "edit", as `executemany` runs them). Returns the raised
error or the new id, together with the connection-visible state reached
(the state at the failing statement, none of which has been committed
when a transaction is open). -/
def addAccessCtlObjectRun (inj : Inject) (s : Store) (objectClass : String)
    (objectId : Int) (ownerId : Int) : Except DbError Nat × Store :=
  match runStep inj.objFault (insertObject s objectClass objectId) with
  | .error e => (.error e, s)
  | .ok (s1, acoId) =>
    match runStep inj.ownFault (insertOwner s1 acoId ownerId) with
    | .error e => (.error e, s1)
    | .ok s2 =>
      match runStep inj.ruleReadFault (insertRule s2 acoId ownerId "read") with
      | .error e => (.error e, s2)
      | .ok s3 =>
        match runStep inj.ruleEditFault (insertRule s3 acoId ownerId "edit") with
        | .error e => (.error e, s3)
        | .ok s4 => (.ok acoId, s4)

/-- Embeds `ACLAccessPolicy.addAccessCtlObject(database, objectClass, objectId,
ownerId, transaction=True)`: runs the insert sequence; on any failure it
rolls back when a transaction was opened (restoring the pre-call state)
and re-raises the original error, and on success it commits when a
transaction was opened and returns the new id. -/
def addAccessCtlObject (inj : Inject) (s : Store) (objectClass : String)
    (objectId : Int) (ownerId : Int) (transaction : Bool) : Except DbError Nat × Store :=
  let r := addAccessCtlObjectRun inj s objectClass objectId ownerId
  match r.1 with
  | .error e => (.error e, if transaction then s else r.2)
  | .ok i => (.ok i, r.2)

/-- Calling `addAccessCtlObject` through its Python signature, whose
`database` parameter has no default and admits no cursor: passing `None`
fails with an `AttributeError` at `database.cursor()` before any
statement runs. -/
def addAccessCtlObjectFrom (database : Option Unit) (inj : Inject) (s : Store)
    (objectClass : String) (objectId : Int) (ownerId : Int) (transaction : Bool) :
    Except LedgerError Nat × Store :=
  match database with
  | none => (.error .attributeErrorNone, s)
  | some _ =>
    match addAccessCtlObject inj s objectClass objectId ownerId transaction with
    | (.error e, s1) => (.error (.dbError e), s1)
    | (.ok i, s1) => (.ok i, s1)

end ACLAccessPolicy

namespace OwnerAccessPolicy

/-- Embeds `OwnerAccessPolicy.verify`: a null `userId` raises the configured
forbidden error; otherwise the ownership-join query runs, a missing row
raises the configured forbidden error, and a fetched row's
`accessCtlObjectId` is returned. -/
def verify {ε : Type} (p : AccessPolicy ε) (s : Store) (userId : Option Int)
    (objectClass : String) (objectId : Int) : Except ε Nat :=
  match userId with
  | none => .error p.forbiddenExceptionCls
  | some uid =>
    match findOwnership s objectClass objectId uid with
    | none => .error p.forbiddenExceptionCls
    | some acoId => .ok acoId

end OwnerAccessPolicy

/-- A GrantRule row granting (granteeId, accessType) on the
ProtectedObject registered under (objectClass, objectId) exists: the
row-level reading of "a GrantRule row matches". -/
def grantRuleMatches (s : Store) (objectClass : String) (objectId : Int)
    (granteeId : Int) (accessType : String) : Prop :=
  ∃ o ∈ s.objects, ∃ r ∈ s.rules,
    o.objectClass = objectClass ∧ o.objectId = objectId ∧
    o.id = r.accessCtlObjectId ∧ r.granteeId = granteeId ∧ r.accessType = accessType

/-- An Ownership row relating the ProtectedObject registered under
(objectClass, objectId) to `ownerId` exists. -/
def ownershipMatches (s : Store) (objectClass : String) (objectId : Int)
    (ownerId : Int) : Prop :=
  ∃ o ∈ s.objects, ∃ w ∈ s.owners,
    o.objectClass = objectClass ∧ o.objectId = objectId ∧
    o.id = w.accessCtlObjectId ∧ w.ownerId = ownerId

instance (s : Store) (objectClass : String) (objectId : Int)
    (granteeId : Int) (accessType : String) :
    Decidable (grantRuleMatches s objectClass objectId granteeId accessType) := by
  unfold grantRuleMatches; exact inferInstance

instance (s : Store) (objectClass : String) (objectId : Int) (ownerId : Int) :
    Decidable (ownershipMatches s objectClass objectId ownerId) := by
  unfold ownershipMatches; exact inferInstance

/-- The policy variants the registry can instantiate: the two built-in
classes wired in `AppPlugin.start` and host-supplied custom classes. -/
inductive PolicyCls where
  | aclAccessPolicy
  | ownerAccessPolicy
  | custom (tag : Nat)
deriving Repr, DecidableEq

/-- One instantiated policy as `AppPlugin.start` builds it:
`policyCls(verifier=accessPolicyVerifier,
forbiddenExceptionCls=forbiddenExceptionCls)`. `V` is the type of the
verifier wrapper and `E` the forbidden-error type, both host-chosen. -/
structure PolicyInstance (V E : Type) where
  cls : PolicyCls
  verifier : V
  forbiddenExceptionCls : E
deriving Repr, DecidableEq

/-- Lookup in a Python dict represented as an insertion-ordered
association list (later duplicates do not arise in our uses). -/
def lookupDict {α : Type} (dict : List (String × α)) (key : String) : Option α :=
  (dict.find? fun kv => kv.1 == key).map (fun kv => kv.2)

/-- The built-in registry entries of `AppPlugin.start`:
`'aclAccessPolicy': ACLAccessPolicy, 'ownerAccessPolicy':
OwnerAccessPolicy`. -/
def builtinPolicyClasses : List (String × PolicyCls) :=
  [("aclAccessPolicy", .aclAccessPolicy), ("ownerAccessPolicy", .ownerAccessPolicy)]

/-- The registry built by `AppPlugin.start`: the built-in dict updated
with `context['accessPolicyClasses']` (configuration overrides built-ins),
each class instantiated with the one configured verifier and forbidden
error type. -/
def buildRegistry {V E : Type} (configPolicyClasses : List (String × PolicyCls))
    (accessPolicyVerifier : V) (forbiddenExceptionCls : E) :
    String → Option (PolicyInstance V E) :=
  fun name =>
    (match lookupDict configPolicyClasses name with
     | some cls => some cls
     | none => lookupDict builtinPolicyClasses name).map
      fun cls => ⟨cls, accessPolicyVerifier, forbiddenExceptionCls⟩

/-- The schema-level state the upgrade command observes and mutates: the
`aclMetadata` version value and whether `accessControlObjects` carries the
UNIQUE (objectClass, objectId) constraint that version 1 lacked. -/
structure SchemaState where
  version : String
  hasUniqueObjClsId : Bool
deriving Repr, DecidableEq

/-- What `upgradeSchema` reports to its caller. -/
inductive UpgradeReport where
  | upToDate
  | mismatch (found : String)
  | upgraded
deriving Repr, DecidableEq

/-- The effect of `upgradeFromV1SQL`: `ALTER TABLE accessControlObjects
ADD CONSTRAINT uniqueObjClsId UNIQUE (objectId, objectClass); UPDATE
aclMetadata SET value = '2' WHERE attribute = 'version'`. -/
def applyUpgradeFromV1 (st : SchemaState) : SchemaState :=
  { st with hasUniqueObjClsId := true, version := "2" }

/-- Embeds `CommandLinePlugin.upgradeSchema`: reads the installed version;
version "2" returns reporting up to date, any version other than "1"
returns reporting the mismatch, and version "1" applies
`upgradeFromV1SQL` and reports success. -/
def upgradeSchema (st : SchemaState) : SchemaState × UpgradeReport :=
  if st.version = "2" then (st, .upToDate)
  else if st.version ≠ "1" then (st, .mismatch st.version)
  else (applyUpgradeFromV1 st, .upgraded)

theorem head?_map_eq {α β : Type} {l : List α} {f : α → β} {b : β}
    (hne : l ≠ []) (hall : ∀ x ∈ l, f x = b) : l.head?.map f = some b := by
  cases l with
  | nil => exact absurd rfl hne
  | cons x t => simpa using hall x (List.mem_cons_self x t)

theorem mem_grantJoinRows {s : Store} {objectClass : String} {objectId : Int}
    {granteeId : Int} {accessType : String} {p : ProtectedObjectRow × GrantRuleRow} :
    p ∈ grantJoinRows s objectClass objectId granteeId accessType ↔
      p.1 ∈ s.objects ∧ p.2 ∈ s.rules ∧ p.1.objectClass = objectClass ∧
      p.1.objectId = objectId ∧ p.1.id = p.2.accessCtlObjectId ∧
      p.2.granteeId = granteeId ∧ p.2.accessType = accessType := by
  cases p with
  | mk o r =>
    simp only [grantJoinRows, List.mem_filter, List.mem_flatMap, List.mem_map,
      Bool.and_eq_true, beq_iff_eq, Prod.mk.injEq]
    constructor
    · rintro ⟨⟨o1, ho1, r1, hr1, rfl, rfl⟩, ⟨⟨⟨h1, h2⟩, h3⟩, h4⟩, h5⟩
      exact ⟨ho1, hr1, h1, h2, h3, h4, h5⟩
    · rintro ⟨ho, hr, h1, h2, h3, h4, h5⟩
      exact ⟨⟨o, ho, r, hr, rfl, rfl⟩, ⟨⟨⟨h1, h2⟩, h3⟩, h4⟩, h5⟩

theorem mem_ownerJoinRows {s : Store} {objectClass : String} {objectId : Int}
    {ownerId : Int} {p : ProtectedObjectRow × OwnershipRow} :
    p ∈ ownerJoinRows s objectClass objectId ownerId ↔
      p.1 ∈ s.objects ∧ p.2 ∈ s.owners ∧ p.1.objectClass = objectClass ∧
      p.1.objectId = objectId ∧ p.1.id = p.2.accessCtlObjectId ∧
      p.2.ownerId = ownerId := by
  cases p with
  | mk o w =>
    simp only [ownerJoinRows, List.mem_filter, List.mem_flatMap, List.mem_map,
      Bool.and_eq_true, beq_iff_eq, Prod.mk.injEq]
    constructor
    · rintro ⟨⟨o1, ho1, w1, hw1, rfl, rfl⟩, ⟨⟨h1, h2⟩, h3⟩, h4⟩
      exact ⟨ho1, hw1, h1, h2, h3, h4⟩
    · rintro ⟨ho, hw, h1, h2, h3, h4⟩
      exact ⟨⟨o, ho, w, hw, rfl, rfl⟩, ⟨⟨h1, h2⟩, h3⟩, h4⟩

theorem grantJoinRows_eq_nil_iff {s : Store} {objectClass : String} {objectId : Int}
    {granteeId : Int} {accessType : String} :
    grantJoinRows s objectClass objectId granteeId accessType = [] ↔
      ¬ grantRuleMatches s objectClass objectId granteeId accessType := by
  rw [List.eq_nil_iff_forall_not_mem]
  unfold grantRuleMatches
  constructor
  · rintro h ⟨o, ho, r, hr, h1, h2, h3, h4, h5⟩
    exact h (o, r) (mem_grantJoinRows.mpr ⟨ho, hr, h1, h2, h3, h4, h5⟩)
  · intro h q hq
    obtain ⟨ho, hr, h1, h2, h3, h4, h5⟩ := mem_grantJoinRows.mp hq
    exact h ⟨q.1, ho, q.2, hr, h1, h2, h3, h4, h5⟩

theorem ownerJoinRows_eq_nil_iff {s : Store} {objectClass : String} {objectId : Int}
    {ownerId : Int} :
    ownerJoinRows s objectClass objectId ownerId = [] ↔
      ¬ ownershipMatches s objectClass objectId ownerId := by
  rw [List.eq_nil_iff_forall_not_mem]
  unfold ownershipMatches
  constructor
  · rintro h ⟨o, ho, w, hw, h1, h2, h3, h4⟩
    exact h (o, w) (mem_ownerJoinRows.mpr ⟨ho, hw, h1, h2, h3, h4⟩)
  · intro h q hq
    obtain ⟨ho, hw, h1, h2, h3, h4⟩ := mem_ownerJoinRows.mp hq
    exact h ⟨q.1, ho, q.2, hw, h1, h2, h3, h4⟩

theorem findGrant_eq_none_iff {s : Store} {objectClass : String} {objectId : Int}
    {granteeId : Int} {accessType : String} :
    findGrant s objectClass objectId granteeId accessType = none ↔
      ¬ grantRuleMatches s objectClass objectId granteeId accessType := by
  rw [findGrant, Option.map_eq_none', List.head?_eq_none_iff, grantJoinRows_eq_nil_iff]

theorem findOwnership_eq_none_iff {s : Store} {objectClass : String} {objectId : Int}
    {ownerId : Int} :
    findOwnership s objectClass objectId ownerId = none ↔
      ¬ ownershipMatches s objectClass objectId ownerId := by
  rw [findOwnership, Option.map_eq_none', List.head?_eq_none_iff, ownerJoinRows_eq_nil_iff]

theorem findGrant_eq_some_inv {s : Store} {objectClass : String} {objectId : Int}
    {granteeId : Int} {accessType : String} {v : Nat}
    (h : findGrant s objectClass objectId granteeId accessType = some v) :
    ∃ p ∈ grantJoinRows s objectClass objectId granteeId accessType,
      p.2.accessCtlObjectId = v ∧ p.1.id = v := by
  rw [findGrant] at h
  obtain ⟨p, hp, hv⟩ := Option.map_eq_some'.mp h
  have hmem := List.mem_of_mem_head? (Option.mem_def.mpr hp)
  have hid := (mem_grantJoinRows.mp hmem).2.2.2.2.1
  exact ⟨p, hmem, hv, hid.trans hv⟩

theorem findOwnership_eq_some_inv {s : Store} {objectClass : String} {objectId : Int}
    {ownerId : Int} {v : Nat}
    (h : findOwnership s objectClass objectId ownerId = some v) :
    ∃ p ∈ ownerJoinRows s objectClass objectId ownerId,
      p.2.accessCtlObjectId = v ∧ p.1.id = v := by
  rw [findOwnership] at h
  obtain ⟨p, hp, hv⟩ := Option.map_eq_some'.mp h
  have hmem := List.mem_of_mem_head? (Option.mem_def.mpr hp)
  have hid := (mem_ownerJoinRows.mp hmem).2.2.2.2.1
  exact ⟨p, hmem, hv, hid.trans hv⟩

theorem findObject_eq_none_iff {s : Store} {objectClass : String} {objectId : Int} :
    findObject s objectClass objectId = none ↔
      ∀ o ∈ s.objects, ¬(o.objectClass = objectClass ∧ o.objectId = objectId) := by
  rw [findObject, Option.map_eq_none', List.find?_eq_none]
  simp

/-- C4: calling verify with a null userId on either the ACL policy or the
Ownership policy raises the configured forbidden error for every store
state, independently of any GrantRule or Ownership rows. -/
theorem claimC4_null_user_always_forbidden {ε : Type} (p : AccessPolicy ε) (s : Store)
    (objectClass : String) (objectId : Int) (accessType : String) :
    ACLAccessPolicy.verify p s none objectClass objectId accessType =
      .error p.forbiddenExceptionCls ∧
    OwnerAccessPolicy.verify p s none objectClass objectId =
      .error p.forbiddenExceptionCls :=
  ⟨rfl, rfl⟩

/-- C10: `upgradeSchema` from version 2 is a no-op reporting up to date;
from version 1 it applies the constraint migration and leaves version 2;
from any other version it reports the mismatch without mutating state. -/
theorem claimC10_upgrade_schema (st : SchemaState) :
    (st.version = "2" → upgradeSchema st = (st, .upToDate)) ∧
    (st.version = "1" →
      (upgradeSchema st).1.version = "2" ∧
      (upgradeSchema st).1.hasUniqueObjClsId = true ∧
      (upgradeSchema st).2 = .upgraded) ∧
    (st.version ≠ "2" → st.version ≠ "1" →
      upgradeSchema st = (st, .mismatch st.version)) := by
  refine ⟨fun h => ?_, fun h => ?_, fun h2 h1 => ?_⟩
  · simp [upgradeSchema, h]
  · simp [upgradeSchema, h, applyUpgradeFromV1]
  · simp [upgradeSchema, h2, h1]

/-- Witness for C10 at the three concrete starting versions "2", "1"
and "3". -/
theorem claimC10_upgrade_schema_witness :
    upgradeSchema ⟨"2", true⟩ = (⟨"2", true⟩, .upToDate) ∧
    ((upgradeSchema ⟨"1", false⟩).1.version = "2" ∧
     (upgradeSchema ⟨"1", false⟩).1.hasUniqueObjClsId = true ∧
     (upgradeSchema ⟨"1", false⟩).2 = .upgraded) ∧
    upgradeSchema ⟨"3", false⟩ = (⟨"3", false⟩, .mismatch "3") :=
  ⟨(claimC10_upgrade_schema ⟨"2", true⟩).1 rfl,
   (claimC10_upgrade_schema ⟨"1", false⟩).2.1 rfl,
   (claimC10_upgrade_schema ⟨"3", false⟩).2.2 (by decide) (by decide)⟩

/-- C8 counterexample: the registry built by `AppPlugin.start` from an
empty configuration has no entry named "aclPolicy" and none named
"ownerPolicy" (the built-in keys are "aclAccessPolicy" and
"ownerAccessPolicy"). -/
theorem claimC8_counterexample :
    buildRegistry (V := Nat) (E := Nat) [] 0 0 "aclPolicy" = none ∧
    buildRegistry (V := Nat) (E := Nat) [] 0 0 "ownerPolicy" = none :=
  ⟨rfl, rfl⟩

/-- C8 (amended): the registry's built-in entries are "aclAccessPolicy"
(an ACL policy) and "ownerAccessPolicy" (an Ownership policy);
configuration mappings are merged on top and override the built-ins; and
every instance carries the one configured verifier and forbidden-error
value. -/
theorem claimC8_registry_builtins_and_overrides {V E : Type}
    (config : List (String × PolicyCls)) (v : V) (f : E) :
    (lookupDict config "aclAccessPolicy" = none →
      buildRegistry config v f "aclAccessPolicy" = some ⟨.aclAccessPolicy, v, f⟩) ∧
    (lookupDict config "ownerAccessPolicy" = none →
      buildRegistry config v f "ownerAccessPolicy" = some ⟨.ownerAccessPolicy, v, f⟩) ∧
    (∀ name cls, lookupDict config name = some cls →
      buildRegistry config v f name = some ⟨cls, v, f⟩) ∧
    (∀ name inst, buildRegistry config v f name = some inst →
      inst.verifier = v ∧ inst.forbiddenExceptionCls = f) := by
  refine ⟨fun h => ?_, fun h => ?_, fun name cls h => ?_, fun name inst h => ?_⟩
  · simp only [buildRegistry, h]; rfl
  · simp only [buildRegistry, h]; rfl
  · simp only [buildRegistry, h, Option.map_some']
  · rw [buildRegistry] at h
    cases hc : lookupDict config name with
    | some cls =>
      rw [hc] at h
      simp only [Option.map_some', Option.some.injEq] at h
      rw [← h]
      exact ⟨rfl, rfl⟩
    | none =>
      rw [hc] at h
      obtain ⟨cls, -, hinst⟩ := Option.map_eq_some'.mp h
      rw [← hinst]
      exact ⟨rfl, rfl⟩

/-- Witness for C8 at a concrete configuration carrying one custom
policy class, with verifier 3 and forbidden value 7. -/
theorem claimC8_registry_witness :
    buildRegistry [("x", PolicyCls.custom 5)] 3 7 "aclAccessPolicy" =
      some ⟨.aclAccessPolicy, 3, 7⟩ ∧
    buildRegistry [("x", PolicyCls.custom 5)] 3 7 "ownerAccessPolicy" =
      some ⟨.ownerAccessPolicy, 3, 7⟩ ∧
    buildRegistry [("x", PolicyCls.custom 5)] 3 7 "x" = some ⟨.custom 5, 3, 7⟩ :=
  ⟨(claimC8_registry_builtins_and_overrides [("x", PolicyCls.custom 5)] 3 7).1 rfl,
   (claimC8_registry_builtins_and_overrides [("x", PolicyCls.custom 5)] 3 7).2.1 rfl,
   (claimC8_registry_builtins_and_overrides [("x", PolicyCls.custom 5)] 3 7).2.2.1
     "x" (.custom 5) rfl⟩

/-- C9 counterexample: `addAccessCtlObject` called without a connection
does not fail with `MissingArgument` — its `database` parameter has no
default, admits no cursor alternative, and a null value fails with an
`AttributeError` at `database.cursor()` instead. -/
theorem claimC9_counterexample :
    (ACLAccessPolicy.addAccessCtlObjectFrom none ACLAccessPolicy.noInject
        ⟨[], [], [], [], 1, 1⟩ "document" 42 7 true).1 ≠
      .error .missingArgument ∧
    (ACLAccessPolicy.addAccessCtlObjectFrom none ACLAccessPolicy.noInject
        ⟨[], [], [], [], 1, 1⟩ "document" 42 7 true).1 =
      .error .attributeErrorNone :=
  ⟨fun h => absurd (Except.error.inj h) (by decide), rfl⟩

/-- C9 (amended): `grant` and `revoke` accept either a connection or a
cursor and fail with `MissingArgument`, before touching the store, when
neither is supplied; `createProtectedObject` requires a connection (it
admits no cursor) and a null connection fails with an `AttributeError`,
not `MissingArgument`, likewise before touching the store. -/
theorem claimC9_connection_or_cursor_required (s : Store) (objectClass : String)
    (objectId : Int) (granteeId ownerId : Int) (accessType : String)
    (inj : Option DbError) (seqInj : ACLAccessPolicy.Inject) (transaction : Bool) :
    ACLAccessPolicy.grant objectClass objectId granteeId accessType none none inj s =
      .error .missingArgument ∧
    ACLAccessPolicy.revoke objectClass objectId granteeId accessType none none inj s =
      .error .missingArgument ∧
    ACLAccessPolicy.addAccessCtlObjectFrom none seqInj s objectClass objectId ownerId
        transaction = (.error .attributeErrorNone, s) := by
  refine ⟨?_, ?_, rfl⟩
  · simp [ACLAccessPolicy.grant]
  · simp [ACLAccessPolicy.revoke]

/-- C1: with a non-null userId, `ACLAccessPolicy.verify` raises the
configured forbidden error exactly when no GrantRule row matches
(objectClass, objectId, userId, accessType), and `OwnerAccessPolicy.verify`
raises it exactly when no Ownership row matches (objectClass, objectId,
userId); whenever a matching row exists, verify returns that row's
ProtectedObject id. -/
theorem claimC1_verify_iff_matching_row {ε : Type} (p : AccessPolicy ε) (s : Store)
    (uid : Int) (objectClass : String) (objectId : Int) (accessType : String) :
    (ACLAccessPolicy.verify p s (some uid) objectClass objectId accessType =
        .error p.forbiddenExceptionCls ↔
      ¬ grantRuleMatches s objectClass objectId uid accessType) ∧
    (grantRuleMatches s objectClass objectId uid accessType →
      ∃ o ∈ s.objects, ∃ r ∈ s.rules,
        o.objectClass = objectClass ∧ o.objectId = objectId ∧
        o.id = r.accessCtlObjectId ∧ r.granteeId = uid ∧ r.accessType = accessType ∧
        ACLAccessPolicy.verify p s (some uid) objectClass objectId accessType =
          .ok o.id) ∧
    (OwnerAccessPolicy.verify p s (some uid) objectClass objectId =
        .error p.forbiddenExceptionCls ↔
      ¬ ownershipMatches s objectClass objectId uid) ∧
    (ownershipMatches s objectClass objectId uid →
      ∃ o ∈ s.objects, ∃ w ∈ s.owners,
        o.objectClass = objectClass ∧ o.objectId = objectId ∧
        o.id = w.accessCtlObjectId ∧ w.ownerId = uid ∧
        OwnerAccessPolicy.verify p s (some uid) objectClass objectId = .ok o.id) := by
  refine ⟨?_, ?_, ?_, ?_⟩
  · rw [← findGrant_eq_none_iff]
    unfold ACLAccessPolicy.verify
    cases hg : findGrant s objectClass objectId uid accessType <;> simp [hg]
  · intro hm
    cases hg : findGrant s objectClass objectId uid accessType with
    | none => exact absurd hm (findGrant_eq_none_iff.mp hg)
    | some v =>
      obtain ⟨q, hq, hv, hid⟩ := findGrant_eq_some_inv hg
      obtain ⟨ho, hr, h1, h2, h3, h4, h5⟩ := mem_grantJoinRows.mp hq
      refine ⟨q.1, ho, q.2, hr, h1, h2, h3, h4, h5, ?_⟩
      simp only [ACLAccessPolicy.verify, hg, hid]
  · rw [← findOwnership_eq_none_iff]
    unfold OwnerAccessPolicy.verify
    cases hg : findOwnership s objectClass objectId uid <;> simp [hg]
  · intro hm
    cases hg : findOwnership s objectClass objectId uid with
    | none => exact absurd hm (findOwnership_eq_none_iff.mp hg)
    | some v =>
      obtain ⟨q, hq, hv, hid⟩ := findOwnership_eq_some_inv hg
      obtain ⟨ho, hw, h1, h2, h3, h4⟩ := mem_ownerJoinRows.mp hq
      refine ⟨q.1, ho, q.2, hw, h1, h2, h3, h4, ?_⟩
      simp only [OwnerAccessPolicy.verify, hg, hid]

/-- Witness for C1 at a concrete store holding one ProtectedObject, its
owner 7, and a "read" GrantRule for 7: both policies return the matched
ProtectedObject id 1. -/
theorem claimC1_verify_iff_matching_row_witness :
    ACLAccessPolicy.verify (⟨99⟩ : AccessPolicy Nat)
        ⟨[7], [⟨1, "document", 42⟩], [⟨1, 7⟩], [⟨1, 1, 7, "read"⟩], 2, 2⟩
        (some 7) "document" 42 "read" = .ok 1 ∧
    OwnerAccessPolicy.verify (⟨99⟩ : AccessPolicy Nat)
        ⟨[7], [⟨1, "document", 42⟩], [⟨1, 7⟩], [⟨1, 1, 7, "read"⟩], 2, 2⟩
        (some 7) "document" 42 = .ok 1 := by
  constructor
  · obtain ⟨o, ho, r, hr, -, -, -, -, -, hv⟩ :=
      (claimC1_verify_iff_matching_row (⟨99⟩ : AccessPolicy Nat)
        ⟨[7], [⟨1, "document", 42⟩], [⟨1, 7⟩], [⟨1, 1, 7, "read"⟩], 2, 2⟩
        7 "document" 42 "read").2.1 (by decide)
    rw [List.mem_singleton] at ho
    rw [ho] at hv
    exact hv
  · obtain ⟨o, ho, w, hw, -, -, -, -, hv⟩ :=
      (claimC1_verify_iff_matching_row (⟨99⟩ : AccessPolicy Nat)
        ⟨[7], [⟨1, "document", 42⟩], [⟨1, 7⟩], [⟨1, 1, 7, "read"⟩], 2, 2⟩
        7 "document" 42 "read").2.2.2 (by decide)
    rw [List.mem_singleton] at ho
    rw [ho] at hv
    exact hv

theorem runStep_ok_inv {α : Type} {fault : Option DbError} {stmt : Except DbError α}
    {a : α} (h : runStep fault stmt = .ok a) : stmt = .ok a := by
  cases fault with
  | none => exact h
  | some e => exact absurd h (by simp [runStep])

theorem insertObject_ok_inv {s t : Store} {objectClass : String} {objectId : Int} {i : Nat}
    (h : insertObject s objectClass objectId = .ok (t, i)) :
    i = s.nextObjectId ∧
    t = { s with objects := s.objects ++ [⟨s.nextObjectId, objectClass, objectId⟩],
                 nextObjectId := s.nextObjectId + 1 } := by
  unfold insertObject at h
  split at h
  · exact absurd h (by simp)
  · simp only [Except.ok.injEq, Prod.mk.injEq] at h
    exact ⟨h.2.symm, h.1.symm⟩

theorem insertOwner_ok_inv {s t : Store} {acoId : Nat} {ownerId : Int}
    (h : insertOwner s acoId ownerId = .ok t) :
    t = { s with owners := s.owners ++ [⟨acoId, ownerId⟩] } := by
  unfold insertOwner at h
  split at h
  · exact absurd h (by simp)
  · split at h
    · exact absurd h (by simp)
    · exact (Except.ok.inj h).symm

theorem insertRule_ok_inv {s t : Store} {acoId : Nat} {granteeId : Int}
    {accessType : String} (h : insertRule s acoId granteeId accessType = .ok t) :
    t = { s with rules := s.rules ++ [⟨s.nextRuleId, acoId, granteeId, accessType⟩],
                 nextRuleId := s.nextRuleId + 1 } := by
  unfold insertRule at h
  split at h
  · exact absurd h (by simp)
  · split at h
    · exact absurd h (by simp)
    · exact (Except.ok.inj h).symm

theorem addAccessCtlObjectRun_ok_inv (inj : ACLAccessPolicy.Inject) (s : Store)
    (objectClass : String) (objectId : Int) (ownerId : Int) (i : Nat) (t : Store)
    (h : ACLAccessPolicy.addAccessCtlObjectRun inj s objectClass objectId ownerId =
      (.ok i, t)) :
    i = s.nextObjectId ∧
    t = { users := s.users,
          objects := s.objects ++ [⟨s.nextObjectId, objectClass, objectId⟩],
          owners := s.owners ++ [⟨s.nextObjectId, ownerId⟩],
          rules := s.rules ++ [⟨s.nextRuleId, s.nextObjectId, ownerId, "read"⟩,
                               ⟨s.nextRuleId + 1, s.nextObjectId, ownerId, "edit"⟩],
          nextObjectId := s.nextObjectId + 1,
          nextRuleId := s.nextRuleId + 1 + 1 } := by
  unfold ACLAccessPolicy.addAccessCtlObjectRun at h
  cases h1 : runStep inj.objFault (insertObject s objectClass objectId) with
  | error e => simp [h1] at h
  | ok pair =>
    obtain ⟨s1, acoId⟩ := pair
    simp only [h1] at h
    cases h2 : runStep inj.ownFault (insertOwner s1 acoId ownerId) with
    | error e => simp [h2] at h
    | ok s2 =>
      simp only [h2] at h
      cases h3 : runStep inj.ruleReadFault (insertRule s2 acoId ownerId "read") with
      | error e => simp [h3] at h
      | ok s3 =>
        simp only [h3] at h
        cases h4 : runStep inj.ruleEditFault (insertRule s3 acoId ownerId "edit") with
        | error e => simp [h4] at h
        | ok s4 =>
          simp only [h4, Prod.mk.injEq, Except.ok.injEq] at h
          obtain ⟨hio, hts⟩ := h
          obtain ⟨hid, hs1⟩ := insertObject_ok_inv (runStep_ok_inv h1)
          have hs2 := insertOwner_ok_inv (runStep_ok_inv h2)
          have hs3 := insertRule_ok_inv (runStep_ok_inv h3)
          have hs4 := insertRule_ok_inv (runStep_ok_inv h4)
          subst hio hid hs1 hs2 hs3 hs4 hts
          refine ⟨rfl, ?_⟩
          simp [List.append_assoc]

theorem addAccessCtlObject_fst (inj : ACLAccessPolicy.Inject) (s : Store)
    (objectClass : String) (objectId : Int) (ownerId : Int) (transaction : Bool) :
    (ACLAccessPolicy.addAccessCtlObject inj s objectClass objectId ownerId transaction).1 =
      (ACLAccessPolicy.addAccessCtlObjectRun inj s objectClass objectId ownerId).1 := by
  unfold ACLAccessPolicy.addAccessCtlObject
  cases h : (ACLAccessPolicy.addAccessCtlObjectRun inj s objectClass objectId ownerId).1 <;>
    simp [h]

theorem addAccessCtlObject_snd_of_error (inj : ACLAccessPolicy.Inject) (s : Store)
    (objectClass : String) (objectId : Int) (ownerId : Int)
    (h : ∃ e, (ACLAccessPolicy.addAccessCtlObjectRun inj s objectClass objectId ownerId).1 =
      .error e) :
    (ACLAccessPolicy.addAccessCtlObject inj s objectClass objectId ownerId true).2 = s := by
  obtain ⟨e, he⟩ := h
  unfold ACLAccessPolicy.addAccessCtlObject
  simp [he]

theorem addAccessCtlObject_ok_inv (inj : ACLAccessPolicy.Inject) (s : Store)
    (objectClass : String) (objectId : Int) (ownerId : Int) (transaction : Bool)
    (i : Nat) (t : Store)
    (h : ACLAccessPolicy.addAccessCtlObject inj s objectClass objectId ownerId transaction =
      (.ok i, t)) :
    ACLAccessPolicy.addAccessCtlObjectRun inj s objectClass objectId ownerId = (.ok i, t) := by
  unfold ACLAccessPolicy.addAccessCtlObject at h
  cases hr : (ACLAccessPolicy.addAccessCtlObjectRun inj s objectClass objectId ownerId).1 with
  | error e => simp [hr] at h
  | ok j =>
    simp only [hr, Prod.mk.injEq, Except.ok.injEq] at h
    rw [← h.1, ← h.2, ← hr]

/-- C2: with `useTransaction = true`, a failure at any step of the
`addAccessCtlObject` insert sequence rolls the transaction back — the
state afterwards is the pre-call state, so none of that call's rows is
visible — and the original error is re-raised unchanged (the reported
outcome equals the untransacted run's outcome); on success the commit
makes the call return the new identity. -/
theorem claimC2_transaction_rollback_and_commit (inj : ACLAccessPolicy.Inject) (s : Store)
    (objectClass : String) (objectId : Int) (ownerId : Int) :
    (∀ e, (ACLAccessPolicy.addAccessCtlObject inj s objectClass objectId ownerId true).1 =
        .error e →
      (ACLAccessPolicy.addAccessCtlObject inj s objectClass objectId ownerId true).2 = s) ∧
    (∀ i, (ACLAccessPolicy.addAccessCtlObject inj s objectClass objectId ownerId true).1 =
        .ok i → i = s.nextObjectId) ∧
    (ACLAccessPolicy.addAccessCtlObject inj s objectClass objectId ownerId true).1 =
      (ACLAccessPolicy.addAccessCtlObject inj s objectClass objectId ownerId false).1 := by
  refine ⟨fun e he => ?_, fun i hi => ?_,
    by rw [addAccessCtlObject_fst, addAccessCtlObject_fst]⟩
  · refine addAccessCtlObject_snd_of_error inj s objectClass objectId ownerId ⟨e, ?_⟩
    rw [← addAccessCtlObject_fst inj s objectClass objectId ownerId true]
    exact he
  · rw [addAccessCtlObject_fst] at hi
    have hrun : ACLAccessPolicy.addAccessCtlObjectRun inj s objectClass objectId ownerId =
        (.ok i,
         (ACLAccessPolicy.addAccessCtlObjectRun inj s objectClass objectId ownerId).2) := by
      rw [← hi]
    exact (addAccessCtlObjectRun_ok_inv inj s objectClass objectId ownerId i _ hrun).1

/-- Witness for C2: on an empty store the ownership insert fails with a
foreign-key violation and the transaction rolls back to the empty store;
on a store whose `users` table holds 7 the sequence succeeds and returns
the store's next AUTO_INCREMENT id. -/
theorem claimC2_transaction_rollback_and_commit_witness :
    (ACLAccessPolicy.addAccessCtlObject ACLAccessPolicy.noInject
        ⟨[], [], [], [], 1, 1⟩ "document" 42 7 true).2 = ⟨[], [], [], [], 1, 1⟩ ∧
    (1 : Nat) = (⟨[7], [], [], [], 1, 1⟩ : Store).nextObjectId :=
  ⟨(claimC2_transaction_rollback_and_commit ACLAccessPolicy.noInject
      ⟨[], [], [], [], 1, 1⟩ "document" 42 7).1 (.integrity .foreignKey) rfl,
   (claimC2_transaction_rollback_and_commit ACLAccessPolicy.noInject
      ⟨[7], [], [], [], 1, 1⟩ "document" 42 7).2.1 1 rfl⟩

theorem findOwnership_eq_some_of {s : Store} {objectClass : String} {objectId : Int}
    {uid : Int} {i : Nat}
    (hne : ownerJoinRows s objectClass objectId uid ≠ [])
    (hall : ∀ p ∈ ownerJoinRows s objectClass objectId uid, p.2.accessCtlObjectId = i) :
    findOwnership s objectClass objectId uid = some i :=
  head?_map_eq hne hall

theorem findGrant_eq_some_of {s : Store} {objectClass : String} {objectId : Int}
    {uid : Int} {accessType : String} {i : Nat}
    (hne : grantJoinRows s objectClass objectId uid accessType ≠ [])
    (hall : ∀ p ∈ grantJoinRows s objectClass objectId uid accessType,
      p.2.accessCtlObjectId = i) :
    findGrant s objectClass objectId uid accessType = some i :=
  head?_map_eq hne hall

/-- C3: a successful `createProtectedObject` on a not-yet-registered
(objectClass, objectId) pair leaves a state where `findOwnership` and
`findGrant` for "read" and "edit" all return the new id, having created
exactly the ProtectedObject row, one Ownership row and the two GrantRules
for the owner. -/
theorem claimC3_create_registers_owner_and_grants (s : Store) (objectClass : String)
    (objectId : Int) (ownerId : Int) (i : Nat) (s1 : Store)
    (hnew : findObject s objectClass objectId = none)
    (h : ACLAccessPolicy.addAccessCtlObject ACLAccessPolicy.noInject s objectClass objectId
        ownerId true = (.ok i, s1)) :
    findOwnership s1 objectClass objectId ownerId = some i ∧
    findGrant s1 objectClass objectId ownerId "read" = some i ∧
    findGrant s1 objectClass objectId ownerId "edit" = some i ∧
    s1.objects = s.objects ++ [⟨i, objectClass, objectId⟩] ∧
    s1.owners = s.owners ++ [⟨i, ownerId⟩] ∧
    s1.rules = s.rules ++ [⟨s.nextRuleId, i, ownerId, "read"⟩,
                           ⟨s.nextRuleId + 1, i, ownerId, "edit"⟩] := by
  obtain ⟨hi, ht⟩ := addAccessCtlObjectRun_ok_inv ACLAccessPolicy.noInject s objectClass
    objectId ownerId i s1
    (addAccessCtlObject_ok_inv ACLAccessPolicy.noInject s objectClass objectId ownerId
      true i s1 h)
  subst hi
  have hobjs : s1.objects = s.objects ++ [⟨s.nextObjectId, objectClass, objectId⟩] := by
    rw [ht]
  have howns : s1.owners = s.owners ++ [⟨s.nextObjectId, ownerId⟩] := by
    rw [ht]
  have hrules : s1.rules = s.rules ++ [⟨s.nextRuleId, s.nextObjectId, ownerId, "read"⟩,
      ⟨s.nextRuleId + 1, s.nextObjectId, ownerId, "edit"⟩] := by
    rw [ht]
  have hobj : ∀ o ∈ s.objects, ¬(o.objectClass = objectClass ∧ o.objectId = objectId) :=
    findObject_eq_none_iff.mp hnew
  refine ⟨?_, ?_, ?_, hobjs, howns, hrules⟩
  · have hmem : ((⟨s.nextObjectId, objectClass, objectId⟩ : ProtectedObjectRow),
        (⟨s.nextObjectId, ownerId⟩ : OwnershipRow)) ∈
        ownerJoinRows s1 objectClass objectId ownerId := by
      apply mem_ownerJoinRows.mpr
      refine ⟨?_, ?_, rfl, rfl, rfl, rfl⟩
      · rw [hobjs]
        exact List.mem_append.mpr (Or.inr (List.mem_singleton.mpr rfl))
      · rw [howns]
        exact List.mem_append.mpr (Or.inr (List.mem_singleton.mpr rfl))
    refine findOwnership_eq_some_of (List.ne_nil_of_mem hmem) ?_
    intro q hq
    obtain ⟨ho, hw, h1, h2, h3, h4⟩ := mem_ownerJoinRows.mp hq
    rw [hobjs] at ho
    rcases List.mem_append.mp ho with hin | hone
    · exact absurd ⟨h1, h2⟩ (hobj q.1 hin)
    · rw [← h3, List.mem_singleton.mp hone]
  · have hmem : ((⟨s.nextObjectId, objectClass, objectId⟩ : ProtectedObjectRow),
        (⟨s.nextRuleId, s.nextObjectId, ownerId, "read"⟩ : GrantRuleRow)) ∈
        grantJoinRows s1 objectClass objectId ownerId "read" := by
      apply mem_grantJoinRows.mpr
      refine ⟨?_, ?_, rfl, rfl, rfl, rfl, rfl⟩
      · rw [hobjs]
        exact List.mem_append.mpr (Or.inr (List.mem_singleton.mpr rfl))
      · rw [hrules]
        exact List.mem_append.mpr (Or.inr (List.mem_cons_self _ _))
    refine findGrant_eq_some_of (List.ne_nil_of_mem hmem) ?_
    intro q hq
    obtain ⟨ho, hr, h1, h2, h3, h4, h5⟩ := mem_grantJoinRows.mp hq
    rw [hobjs] at ho
    rcases List.mem_append.mp ho with hin | hone
    · exact absurd ⟨h1, h2⟩ (hobj q.1 hin)
    · rw [← h3, List.mem_singleton.mp hone]
  · have hmem : ((⟨s.nextObjectId, objectClass, objectId⟩ : ProtectedObjectRow),
        (⟨s.nextRuleId + 1, s.nextObjectId, ownerId, "edit"⟩ : GrantRuleRow)) ∈
        grantJoinRows s1 objectClass objectId ownerId "edit" := by
      apply mem_grantJoinRows.mpr
      refine ⟨?_, ?_, rfl, rfl, rfl, rfl, rfl⟩
      · rw [hobjs]
        exact List.mem_append.mpr (Or.inr (List.mem_singleton.mpr rfl))
      · rw [hrules]
        exact List.mem_append.mpr (Or.inr (List.mem_cons_of_mem _ (List.mem_cons_self _ _)))
    refine findGrant_eq_some_of (List.ne_nil_of_mem hmem) ?_
    intro q hq
    obtain ⟨ho, hr, h1, h2, h3, h4, h5⟩ := mem_grantJoinRows.mp hq
    rw [hobjs] at ho
    rcases List.mem_append.mp ho with hin | hone
    · exact absurd ⟨h1, h2⟩ (hobj q.1 hin)
    · rw [← h3, List.mem_singleton.mp hone]

/-- Witness for C3 at a concrete store whose `users` table holds 7:
creating ("document", 42) with owner 7 registers id 1 and both lookups
find it. -/
theorem claimC3_create_registers_owner_and_grants_witness :
    findOwnership ⟨[7], [⟨1, "document", 42⟩], [⟨1, 7⟩],
        [⟨1, 1, 7, "read"⟩, ⟨2, 1, 7, "edit"⟩], 2, 3⟩ "document" 42 7 = some 1 ∧
    findGrant ⟨[7], [⟨1, "document", 42⟩], [⟨1, 7⟩],
        [⟨1, 1, 7, "read"⟩, ⟨2, 1, 7, "edit"⟩], 2, 3⟩ "document" 42 7 "read" = some 1 ∧
    findGrant ⟨[7], [⟨1, "document", 42⟩], [⟨1, 7⟩],
        [⟨1, 1, 7, "read"⟩, ⟨2, 1, 7, "edit"⟩], 2, 3⟩ "document" 42 7 "edit" = some 1 := by
  obtain ⟨w1, w2, w3, -, -, -⟩ := claimC3_create_registers_owner_and_grants
    ⟨[7], [], [], [], 1, 1⟩ "document" 42 7 1
    ⟨[7], [⟨1, "document", 42⟩], [⟨1, 7⟩], [⟨1, 1, 7, "read"⟩, ⟨2, 1, 7, "edit"⟩], 2, 3⟩
    rfl rfl
  exact ⟨w1, w2, w3⟩

theorem ruleKeyCount_pos_any {s : Store} {acoId : Nat} {granteeId : Int}
    {accessType : String} (h : 1 ≤ ruleKeyCount s acoId granteeId accessType) :
    (s.rules.any fun r => r.accessCtlObjectId == acoId && r.granteeId == granteeId &&
      r.accessType == accessType) = true := by
  rw [ruleKeyCount] at h
  obtain ⟨r, hr⟩ := List.exists_mem_of_length_pos h
  obtain ⟨hmem, hp⟩ := List.mem_filter.mp hr
  exact List.any_eq_true.mpr ⟨r, hmem, hp⟩

theorem ruleKeyCount_zero_any {s : Store} {acoId : Nat} {granteeId : Int}
    {accessType : String} (h : ruleKeyCount s acoId granteeId accessType = 0) :
    (s.rules.any fun r => r.accessCtlObjectId == acoId && r.granteeId == granteeId &&
      r.accessType == accessType) = false := by
  rw [ruleKeyCount, List.length_eq_zero] at h
  rw [List.any_eq_false]
  exact List.filter_eq_nil_iff.mp h

theorem insertRule_of_dup {s : Store} {acoId : Nat} {granteeId : Int}
    {accessType : String} (h : 1 ≤ ruleKeyCount s acoId granteeId accessType) :
    insertRule s acoId granteeId accessType = .error (.integrity .duplicateKey) := by
  rw [insertRule, if_pos (ruleKeyCount_pos_any h)]

theorem insertRule_of_new {s : Store} {acoId : Nat} {granteeId : Int}
    {accessType : String} (h0 : ruleKeyCount s acoId granteeId accessType = 0)
    (hu : granteeId ∈ s.users) (ho : ∃ o ∈ s.objects, o.id = acoId) :
    insertRule s acoId granteeId accessType =
      .ok { s with rules := s.rules ++ [⟨s.nextRuleId, acoId, granteeId, accessType⟩],
                   nextRuleId := s.nextRuleId + 1 } := by
  have h1 := ruleKeyCount_zero_any h0
  have h2 : s.users.contains granteeId = true := by simpa using hu
  have h3 : (s.objects.any fun o => o.id == acoId) = true := by
    obtain ⟨o, hmem, hid⟩ := ho
    exact List.any_eq_true.mpr ⟨o, hmem, by simp [hid]⟩
  rw [insertRule, if_neg (by simp [h1]), if_neg (by simp [h3, hu])]

theorem deleteRules_eq_self {s : Store} {acoId : Nat} {granteeId : Int}
    {accessType : String} (h : ruleKeyCount s acoId granteeId accessType = 0) :
    deleteRules s acoId granteeId accessType = s := by
  rw [ruleKeyCount, List.length_eq_zero] at h
  have hall := List.filter_eq_nil_iff.mp h
  rw [deleteRules]
  have hsame : (s.rules.filter fun r => !(r.accessCtlObjectId == acoId &&
      r.granteeId == granteeId && r.accessType == accessType)) = s.rules := by
    rw [List.filter_eq_self]
    intro r hr
    cases hb : (r.accessCtlObjectId == acoId && r.granteeId == granteeId &&
        r.accessType == accessType) with
    | false => simp [hb]
    | true => exact absurd hb (hall r hr)
  rw [hsame]

/-- C5: on a registered ProtectedObject, with the grantee a known user
and the store satisfying the GrantRule uniqueness constraint, granting
the same (granteeId, accessType) twice leaves exactly one matching
GrantRule row (the second call succeeds without effect), and revoking a
(granteeId, accessType) with no matching GrantRule row succeeds without
raising and without changing the store. -/
theorem claimC5_grant_idempotent_revoke_noop (s : Store) (objectClass : String)
    (objectId : Int) (granteeId : Int) (accessType : String) (acoId : Nat) (s1 : Store)
    (hfound : findObject s objectClass objectId = some acoId)
    (huser : granteeId ∈ s.users)
    (hinv : ruleKeyCount s acoId granteeId accessType ≤ 1)
    (h1 : ACLAccessPolicy.grant objectClass objectId granteeId accessType
        (some ()) none none s = .ok s1) :
    ACLAccessPolicy.grant objectClass objectId granteeId accessType
        (some ()) none none s1 = .ok s1 ∧
    ruleKeyCount s1 acoId granteeId accessType = 1 ∧
    (∀ granteeId2 accessType2, ruleKeyCount s acoId granteeId2 accessType2 = 0 →
      ACLAccessPolicy.revoke objectClass objectId granteeId2 accessType2
        (some ()) none none s = .ok s) := by
  have hobj : ∃ o ∈ s.objects, o.id = acoId := by
    rw [findObject] at hfound
    obtain ⟨o, hf, hid⟩ := Option.map_eq_some'.mp hfound
    exact ⟨o, List.mem_of_find?_eq_some hf, hid⟩
  have hfound' : findObject s objectClass objectId = some acoId := by
    rw [findObject] at hfound ⊢
    exact hfound
  have hrev : ∀ granteeId2 accessType2,
      ruleKeyCount s acoId granteeId2 accessType2 = 0 →
      ACLAccessPolicy.revoke objectClass objectId granteeId2 accessType2
        (some ()) none none s = .ok s := by
    intro granteeId2 accessType2 h0
    simp [ACLAccessPolicy.revoke, hfound', runStep, deleteRules_eq_self h0]
  by_cases hdup : 1 ≤ ruleKeyCount s acoId granteeId accessType
  · have hins := insertRule_of_dup hdup
    have hs1 : s1 = s := by
      simp [ACLAccessPolicy.grant, hfound', runStep, hins] at h1
      exact h1.symm
    subst hs1
    exact ⟨by simp [ACLAccessPolicy.grant, hfound', runStep, hins],
           le_antisymm hinv hdup, hrev⟩
  · push_neg at hdup
    have h0 : ruleKeyCount s acoId granteeId accessType = 0 := Nat.lt_one_iff.mp hdup
    have hins := insertRule_of_new h0 huser hobj
    have hs1 : s1 = { s with
        rules := s.rules ++ [⟨s.nextRuleId, acoId, granteeId, accessType⟩],
        nextRuleId := s.nextRuleId + 1 } := by
      simp [ACLAccessPolicy.grant, hfound', runStep, hins] at h1
      exact h1.symm
    subst hs1
    have hcount : ruleKeyCount { s with
        rules := s.rules ++ [⟨s.nextRuleId, acoId, granteeId, accessType⟩],
        nextRuleId := s.nextRuleId + 1 } acoId granteeId accessType = 1 := by
      rw [ruleKeyCount] at h0
      simp [ruleKeyCount, List.filter_append, h0]
    have hfound2 : findObject { s with
        rules := s.rules ++ [⟨s.nextRuleId, acoId, granteeId, accessType⟩],
        nextRuleId := s.nextRuleId + 1 } objectClass objectId = some acoId := hfound'
    refine ⟨?_, hcount, hrev⟩
    simp [ACLAccessPolicy.grant, hfound2, runStep,
      insertRule_of_dup (le_of_eq hcount.symm)]

/-- Witness for C5 at a concrete store: granting "read" on the registered
object to user 9 and granting it again leaves one matching row, and
revoking the absent ("edit", user 5) rule is a silent no-op. -/
theorem claimC5_grant_idempotent_revoke_noop_witness :
    ACLAccessPolicy.grant "document" 42 9 "read" (some ()) none none
        ⟨[7, 9], [⟨1, "document", 42⟩], [⟨1, 7⟩], [⟨1, 1, 9, "read"⟩], 2, 2⟩ =
      .ok ⟨[7, 9], [⟨1, "document", 42⟩], [⟨1, 7⟩], [⟨1, 1, 9, "read"⟩], 2, 2⟩ ∧
    ruleKeyCount ⟨[7, 9], [⟨1, "document", 42⟩], [⟨1, 7⟩], [⟨1, 1, 9, "read"⟩], 2, 2⟩
      1 9 "read" = 1 ∧
    ACLAccessPolicy.revoke "document" 42 5 "edit" (some ()) none none
        ⟨[7, 9], [⟨1, "document", 42⟩], [⟨1, 7⟩], [], 2, 1⟩ =
      .ok ⟨[7, 9], [⟨1, "document", 42⟩], [⟨1, 7⟩], [], 2, 1⟩ := by
  obtain ⟨w1, w2, w3⟩ := claimC5_grant_idempotent_revoke_noop
    ⟨[7, 9], [⟨1, "document", 42⟩], [⟨1, 7⟩], [], 2, 1⟩ "document" 42 9 "read" 1
    ⟨[7, 9], [⟨1, "document", 42⟩], [⟨1, 7⟩], [⟨1, 1, 9, "read"⟩], 2, 2⟩
    rfl (by decide) (by decide) rfl
  exact ⟨w1, w2, w3 5 "edit" (by decide)⟩

/-- C6 counterexample: on a store whose `users` table is empty, the
GrantRule insert for grantee 9 fails with a foreign-key constraint
violation — not a uniqueness violation — yet `grant` absorbs it and
returns success, because the code catches every `pymysql.IntegrityError`. -/
theorem claimC6_counterexample :
    insertRule ⟨[], [⟨1, "document", 42⟩], [], [], 2, 1⟩ 1 9 "edit" =
      .error (.integrity .foreignKey) ∧
    ACLAccessPolicy.grant "document" 42 9 "edit" (some ()) none none
        ⟨[], [⟨1, "document", 42⟩], [], [], 2, 1⟩ =
      .ok ⟨[], [⟨1, "document", 42⟩], [], [], 2, 1⟩ :=
  ⟨rfl, rfl⟩

/-- C6 (amended): on `grant`'s GrantRule insert, every constraint
violation (`IntegrityError`, whether a duplicate key or a foreign-key
failure) is absorbed into success; every non-IntegrityError failure of
the insert propagates unchanged to the caller; a successful insert's
state is returned. -/
theorem claimC6_integrity_absorbed_others_propagate (objectClass : String)
    (objectId : Int) (granteeId : Int) (accessType : String) (inj : Option DbError)
    (s : Store) (acoId : Nat)
    (hfound : findObject s objectClass objectId = some acoId) :
    (∀ k, runStep inj (insertRule s acoId granteeId accessType) =
        .error (.integrity k) →
      ACLAccessPolicy.grant objectClass objectId granteeId accessType
        (some ()) none inj s = .ok s) ∧
    (∀ c, runStep inj (insertRule s acoId granteeId accessType) =
        .error (.operational c) →
      ACLAccessPolicy.grant objectClass objectId granteeId accessType
        (some ()) none inj s = .error (.dbError (.operational c))) ∧
    (∀ s1, runStep inj (insertRule s acoId granteeId accessType) = .ok s1 →
      ACLAccessPolicy.grant objectClass objectId granteeId accessType
        (some ()) none inj s = .ok s1) := by
  refine ⟨fun k h => ?_, fun c h => ?_, fun s1 h => ?_⟩ <;>
    simp [ACLAccessPolicy.grant, hfound, h]

/-- Witness for C6: a duplicate insert is absorbed, and an injected
non-IntegrityError (operational error 5) propagates unchanged. -/
theorem claimC6_integrity_absorbed_others_propagate_witness :
    ACLAccessPolicy.grant "document" 42 9 "edit" (some ()) none none
        ⟨[9], [⟨1, "document", 42⟩], [], [⟨1, 1, 9, "edit"⟩], 2, 2⟩ =
      .ok ⟨[9], [⟨1, "document", 42⟩], [], [⟨1, 1, 9, "edit"⟩], 2, 2⟩ ∧
    ACLAccessPolicy.grant "document" 42 9 "edit" (some ()) none
        (some (.operational 5)) ⟨[9], [⟨1, "document", 42⟩], [], [], 2, 1⟩ =
      .error (.dbError (.operational 5)) :=
  ⟨(claimC6_integrity_absorbed_others_propagate "document" 42 9 "edit" none
      ⟨[9], [⟨1, "document", 42⟩], [], [⟨1, 1, 9, "edit"⟩], 2, 2⟩ 1 rfl).1
      .duplicateKey rfl,
   (claimC6_integrity_absorbed_others_propagate "document" 42 9 "edit"
      (some (.operational 5)) ⟨[9], [⟨1, "document", 42⟩], [], [], 2, 1⟩ 1 rfl).2.1
      5 rfl⟩

/-- C7: when a connection or cursor is supplied, `grant` and `revoke`
fail with the object-not-found error exactly when the
(objectClass, objectId) pair has no registered ProtectedObject — the
check precedes the mutation statement, whose outcome (including any
injected fault) never changes this — and the error is surfaced to the
caller. -/
theorem claimC7_object_not_found_iff_unregistered (objectClass : String)
    (objectId : Int) (granteeId : Int) (accessType : String)
    (database cursor : Option Unit) (inj : Option DbError) (s : Store)
    (hargs : ¬(cursor = none ∧ database = none)) :
    (ACLAccessPolicy.grant objectClass objectId granteeId accessType
        database cursor inj s = .error .objectNotFound ↔
      findObject s objectClass objectId = none) ∧
    (ACLAccessPolicy.revoke objectClass objectId granteeId accessType
        database cursor inj s = .error .objectNotFound ↔
      findObject s objectClass objectId = none) := by
  constructor
  · rw [ACLAccessPolicy.grant, if_neg hargs]
    cases hf : findObject s objectClass objectId with
    | none => simp [hf]
    | some acoId =>
      cases hr : runStep inj (insertRule s acoId granteeId accessType) with
      | ok s1 => simp [hf, hr]
      | error e =>
        cases e with
        | integrity k => simp [hf, hr]
        | operational c => simp [hf, hr]
  · rw [ACLAccessPolicy.revoke, if_neg hargs]
    cases hf : findObject s objectClass objectId with
    | none => simp [hf]
    | some acoId =>
      cases hi : inj with
      | none => simp [hf, runStep]
      | some e =>
        cases e with
        | integrity k => simp [hf, runStep]
        | operational c => simp [hf, runStep]

/-- Witness for C7 on the empty store (nothing registered): both
operations, called with a connection, fail with the object-not-found
error. -/
theorem claimC7_object_not_found_iff_unregistered_witness :
    ACLAccessPolicy.grant "document" 42 9 "edit" (some ()) none none
        ⟨[], [], [], [], 1, 1⟩ = .error .objectNotFound ∧
    ACLAccessPolicy.revoke "document" 42 9 "edit" (some ()) none none
        ⟨[], [], [], [], 1, 1⟩ = .error .objectNotFound :=
  ⟨(claimC7_object_not_found_iff_unregistered "document" 42 9 "edit" (some ()) none
      none ⟨[], [], [], [], 1, 1⟩ (by decide)).1.mpr rfl,
   (claimC7_object_not_found_iff_unregistered "document" 42 9 "edit" (some ()) none
      none ⟨[], [], [], [], 1, 1⟩ (by decide)).2.mpr rfl⟩
